import Mathlib

/-!
Verification of the `decibel` crate (src/lib.rs): conversion utilities between
linear amplitude ratios and logarithmic decibel ratios.

The crate computes with IEEE-754 floating-point numbers (`f32` / `f64`).  We
embed a floating-point datum as an idealized value: a real number, positive
infinity, negative infinity, or NaN.  Arithmetic on finite values is exact real
arithmetic (no rounding), while the special values follow the IEEE-754 rules for
the operations the source uses (`*`, `/`, `log10`, `powf`).  The model uses a
single zero, identified with the real number 0 (IEEE signed zeros are collapsed;
none of the specified behaviours distinguishes them).
-/

namespace Decibel

/-- Idealized floating-point datum: a finite real, an infinity, or NaN. -/
inductive Fp where
  | finite (x : ℝ)
  | pinf
  | ninf
  | nan

/-- IEEE-754 multiplication on idealized floats (used by the source as
`log10(...) * 20.0`): NaN propagates, infinity times a nonzero value keeps the
product of signs, infinity times zero is NaN, and finite values multiply
exactly. -/
noncomputable def fpMul : Fp → Fp → Fp
  | Fp.nan, _ => Fp.nan
  | _, Fp.nan => Fp.nan
  | Fp.finite x, Fp.finite y => Fp.finite (x * y)
  | Fp.finite x, Fp.pinf => if 0 < x then Fp.pinf else if x < 0 then Fp.ninf else Fp.nan
  | Fp.finite x, Fp.ninf => if 0 < x then Fp.ninf else if x < 0 then Fp.pinf else Fp.nan
  | Fp.pinf, Fp.finite y => if 0 < y then Fp.pinf else if y < 0 then Fp.ninf else Fp.nan
  | Fp.ninf, Fp.finite y => if 0 < y then Fp.ninf else if y < 0 then Fp.pinf else Fp.nan
  | Fp.pinf, Fp.pinf => Fp.pinf
  | Fp.pinf, Fp.ninf => Fp.ninf
  | Fp.ninf, Fp.pinf => Fp.ninf
  | Fp.ninf, Fp.ninf => Fp.pinf

/-- IEEE-754 division on idealized floats (used by the source as
`decibels / 20.0`): NaN propagates, division by zero of a nonzero finite value
gives an infinity, zero over zero and infinity over infinity give NaN, a finite
value over an infinity gives zero, and finite values divide exactly. -/
noncomputable def fpDiv : Fp → Fp → Fp
  | Fp.nan, _ => Fp.nan
  | _, Fp.nan => Fp.nan
  | Fp.finite x, Fp.finite y =>
      if y = 0 then (if x = 0 then Fp.nan else if 0 < x then Fp.pinf else Fp.ninf)
      else Fp.finite (x / y)
  | Fp.finite _, Fp.pinf => Fp.finite 0
  | Fp.finite _, Fp.ninf => Fp.finite 0
  | Fp.pinf, Fp.finite y => if y < 0 then Fp.ninf else Fp.pinf
  | Fp.ninf, Fp.finite y => if y < 0 then Fp.pinf else Fp.ninf
  | Fp.pinf, Fp.pinf => Fp.nan
  | Fp.pinf, Fp.ninf => Fp.nan
  | Fp.ninf, Fp.pinf => Fp.nan
  | Fp.ninf, Fp.ninf => Fp.nan

/-- Model of `f32::log10` / `f64::log10` (base-10 logarithm, idealized to
exact real arithmetic on finite inputs): NaN propagates, `log10(+inf) = +inf`,
`log10(-inf) = NaN`, `log10(0) = -inf`, `log10(x) = NaN` for `x < 0`, and
`log10(x)` is the exact base-10 logarithm for finite `x > 0`. -/
noncomputable def fpLog10 : Fp → Fp
  | Fp.nan => Fp.nan
  | Fp.pinf => Fp.pinf
  | Fp.ninf => Fp.nan
  | Fp.finite x =>
      if x < 0 then Fp.nan
      else if x = 0 then Fp.ninf
      else Fp.finite (Real.logb 10 x)

/-- Model of `f32::powf(10.0, e)` / `f64::powf(10.0, e)` — the source only ever
calls `powf` with the literal base `10.0`, so we embed that partial
application.  NaN propagates, `10^(+inf) = +inf`, `10^(-inf) = 0`, and for a
finite exponent the result is the exact real power (no rounding and no overflow
to infinity, unlike the machine `powf`; quantitative rounding claims are
therefore outside this model). -/
noncomputable def fpPowf10 : Fp → Fp
  | Fp.nan => Fp.nan
  | Fp.pinf => Fp.pinf
  | Fp.ninf => Fp.finite 0
  | Fp.finite y => Fp.finite ((10 : ℝ) ^ y)

/-- Embeds `pub struct AmplitudeRatio<T: Copy>(pub T)` — a tagged amplitude
value; the name avoids the `Ratio` suffix for tooling reasons. -/
structure AmplitudeRat (T : Type) where
  val : T

/-- Embeds `pub struct DecibelRatio<T: Copy>(pub T)` — a tagged decibel
value. -/
structure DecibelRat (T : Type) where
  val : T

/-- Embeds `AmplitudeRatio::amplitude_value`: returns the wrapped value. -/
def AmplitudeRat.amplitude_value {T : Type} (a : AmplitudeRat T) : T := a.val

/-- Embeds `DecibelRatio::decibel_value`: returns the wrapped value. -/
def DecibelRat.decibel_value {T : Type} (d : DecibelRat T) : T := d.val

/-- The floating-point operations one precision `$T` supplies to the macros
`impl_from_amplitude_ratio!`/`impl_from_decibel_ratio!`: its own `log10` and
its own `powf` at base `10.0`. -/
structure FpOps where
  log10 : Fp → Fp
  powf10 : Fp → Fp

/-- Embeds the body of `impl_from_amplitude_ratio!($T)`:
`DecibelRatio(<$T>::log10(amplitude.amplitude_value()) * 20.0)`, generic over
the precision's own operations. -/
noncomputable def implFromAmplitudeRat (ops : FpOps) (amplitude : AmplitudeRat Fp) :
    DecibelRat Fp :=
  ⟨fpMul (ops.log10 amplitude.amplitude_value) (Fp.finite 20)⟩

/-- Embeds the body of `impl_from_decibel_ratio!($T)`:
`AmplitudeRatio(<$T>::powf(10.0, decibels.decibel_value() / 20.0))`, generic
over the precision's own operations. -/
noncomputable def implFromDecibelRat (ops : FpOps) (decibels : DecibelRat Fp) :
    AmplitudeRat Fp :=
  ⟨ops.powf10 (fpDiv decibels.decibel_value (Fp.finite 20))⟩

/-- The `f32` operations.  Idealized: exact `log10` and `powf(10.0, _)`.  The
two precisions differ only in rounding, which the model abstracts away, so this
table and `f64Ops` are extensionally identical; the model therefore cannot
distinguish which precision's functions an instantiation calls. -/
noncomputable def f32Ops : FpOps := ⟨fpLog10, fpPowf10⟩

/-- The `f64` operations (idealized identically to `f32Ops`; see the comment
there). -/
noncomputable def f64Ops : FpOps := ⟨fpLog10, fpPowf10⟩

/-- `impl_from_amplitude_ratio!(f32)` (lib.rs line 93). -/
noncomputable def ampToDb32 : AmplitudeRat Fp → DecibelRat Fp :=
  implFromAmplitudeRat f32Ops

/-- `impl_from_amplitude_ratio!(f64)` (lib.rs line 94). -/
noncomputable def ampToDb64 : AmplitudeRat Fp → DecibelRat Fp :=
  implFromAmplitudeRat f64Ops

/-- `impl_from_decibel_ratio!(f32)` (lib.rs line 107). -/
noncomputable def dbToAmp32 : DecibelRat Fp → AmplitudeRat Fp :=
  implFromDecibelRat f32Ops

/-- `impl_from_decibel_ratio!(f64)` (lib.rs line 108). -/
noncomputable def dbToAmp64 : DecibelRat Fp → AmplitudeRat Fp :=
  implFromDecibelRat f64Ops

/-- Idealized floating-point multiplication is commutative (IEEE-754
multiplication is commutative on every combination of operands, including the
special values). -/
theorem fpMul_comm (a b : Fp) : fpMul a b = fpMul b a := by
  cases a <;> cases b <;> simp [fpMul, mul_comm]

/-- C1: converting an `AmplitudeRatio` wrapping `a` to a `DecibelRatio` yields
exactly 20 multiplied by the base-10 logarithm of `a` (the source computes
`log10(a) * 20.0`; by commutativity of IEEE multiplication this equals
`20 * log10(a)` for every input, in both the `f32` and `f64`
instantiations). -/
theorem amp_to_db_is_twenty_log10 (a : Fp) :
    (ampToDb32 ⟨a⟩).decibel_value = fpMul (Fp.finite 20) (fpLog10 a) ∧
    (ampToDb64 ⟨a⟩).decibel_value = fpMul (Fp.finite 20) (fpLog10 a) :=
  ⟨fpMul_comm (fpLog10 a) (Fp.finite 20), fpMul_comm (fpLog10 a) (Fp.finite 20)⟩

/-- C7: the read accessors return exactly the value used at construction, with
no transformation. -/
theorem accessors_are_identity {T : Type} (v : T) :
    (AmplitudeRat.mk v).amplitude_value = v ∧ (DecibelRat.mk v).decibel_value = v :=
  ⟨rfl, rfl⟩

/-- C2: converting a `DecibelRatio` wrapping `d` to an `AmplitudeRatio` yields
exactly `10^(d/20)`: for every input the result is `powf(10.0, d / 20.0)` as
composed from the precision's operations, and for a finite input `x` it is the
exact real power `10 ^ (x / 20)`, in both instantiations. -/
theorem db_to_amp_is_ten_pow (x : ℝ) (d : Fp) :
    (dbToAmp32 ⟨d⟩).amplitude_value = fpPowf10 (fpDiv d (Fp.finite 20)) ∧
    (dbToAmp64 ⟨d⟩).amplitude_value = fpPowf10 (fpDiv d (Fp.finite 20)) ∧
    (dbToAmp32 ⟨Fp.finite x⟩).amplitude_value = Fp.finite ((10 : ℝ) ^ (x / 20)) ∧
    (dbToAmp64 ⟨Fp.finite x⟩).amplitude_value = Fp.finite ((10 : ℝ) ^ (x / 20)) := by
  refine ⟨rfl, rfl, ?_, ?_⟩ <;>
    norm_num [dbToAmp32, dbToAmp64, implFromDecibelRat, f32Ops, f64Ops,
      DecibelRat.decibel_value, AmplitudeRat.amplitude_value, fpDiv, fpPowf10]

/-- Exact cancellation behind the round trip: raising 10 to `log10 x * 20 / 20`
recovers `x` for positive `x`. -/
lemma ten_pow_log_roundtrip (x : ℝ) (hx : 0 < x) :
    (10 : ℝ) ^ (Real.logb 10 x * 20 / 20) = x := by
  rw [mul_div_cancel_right₀ _ (by norm_num : (20 : ℝ) ≠ 0)]
  exact Real.rpow_logb (by norm_num) (by norm_num) hx

/-- In the exact-real model the `f32` round trip is exact for positive finite
inputs.  This expresses only the algebraic inverse relationship of the two
formulas; it says nothing about the rounding error of the machine `log10` and
`powf`, which the model idealizes away. -/
lemma roundtrip32_exact (x : ℝ) (hx : 0 < x) :
    (dbToAmp32 (ampToDb32 ⟨Fp.finite x⟩)).amplitude_value = Fp.finite x := by
  have hnl : ¬ x < 0 := not_lt.mpr hx.le
  have hne : x ≠ 0 := ne_of_gt hx
  show fpPowf10 (fpDiv (fpMul (fpLog10 (Fp.finite x)) (Fp.finite 20)) (Fp.finite 20)) =
    Fp.finite x
  rw [show fpLog10 (Fp.finite x) = Fp.finite (Real.logb 10 x) by simp [fpLog10, hnl, hne]]
  show fpPowf10 (fpDiv (Fp.finite (Real.logb 10 x * 20)) (Fp.finite 20)) = Fp.finite x
  rw [show fpDiv (Fp.finite (Real.logb 10 x * 20)) (Fp.finite 20) =
      Fp.finite (Real.logb 10 x * 20 / 20) by norm_num [fpDiv]]
  show Fp.finite ((10 : ℝ) ^ (Real.logb 10 x * 20 / 20)) = Fp.finite x
  rw [ten_pow_log_roundtrip x hx]

/-- In the exact-real model the `f64` round trip is exact for positive finite
inputs. -/
lemma roundtrip64_exact (x : ℝ) (hx : 0 < x) :
    (dbToAmp64 (ampToDb64 ⟨Fp.finite x⟩)).amplitude_value = Fp.finite x :=
  roundtrip32_exact x hx

/-- C4: an amplitude of zero converts to negative infinity, and any strictly
negative amplitude converts to NaN, in both precisions; both are ordinary
return values, not errors. -/
theorem zero_and_negative_amplitudes :
    ((ampToDb32 ⟨Fp.finite 0⟩).decibel_value = Fp.ninf ∧
     (ampToDb64 ⟨Fp.finite 0⟩).decibel_value = Fp.ninf) ∧
    ∀ x : ℝ, x < 0 →
      (ampToDb32 ⟨Fp.finite x⟩).decibel_value = Fp.nan ∧
      (ampToDb64 ⟨Fp.finite x⟩).decibel_value = Fp.nan := by
  constructor
  · constructor <;>
      · show fpMul (fpLog10 (Fp.finite 0)) (Fp.finite 20) = Fp.ninf
        norm_num [fpLog10, fpMul]
  · intro x hx
    constructor <;>
      · show fpMul (fpLog10 (Fp.finite x)) (Fp.finite 20) = Fp.nan
        rw [show fpLog10 (Fp.finite x) = Fp.nan by simp [fpLog10, hx]]
        rfl

/-- Witness for C4 at the concrete negative input -1. -/
theorem zero_and_negative_amplitudes_witness :
    (-1 : ℝ) < 0 ∧ (ampToDb32 ⟨Fp.finite (-1)⟩).decibel_value = Fp.nan :=
  ⟨by norm_num, (zero_and_negative_amplitudes.2 (-1) (by norm_num)).1⟩

/-- C5: a decibel value of 0.0 converts to exactly the amplitude 1.0, in both
precisions (`10 ^ (0 / 20) = 1` exactly). -/
theorem zero_db_gives_one :
    (dbToAmp32 ⟨Fp.finite 0⟩).amplitude_value = Fp.finite 1 ∧
    (dbToAmp64 ⟨Fp.finite 0⟩).amplitude_value = Fp.finite 1 := by
  constructor <;>
    · show fpPowf10 (fpDiv (Fp.finite 0) (Fp.finite 20)) = Fp.finite 1
      norm_num [fpDiv, fpPowf10]

/-- C6: a decibel value of negative infinity converts to exactly 0.0 and a
decibel value of positive infinity converts to positive infinity, in both
precisions. -/
theorem infinite_db_conversions :
    (dbToAmp32 ⟨Fp.ninf⟩).amplitude_value = Fp.finite 0 ∧
    (dbToAmp32 ⟨Fp.pinf⟩).amplitude_value = Fp.pinf ∧
    (dbToAmp64 ⟨Fp.ninf⟩).amplitude_value = Fp.finite 0 ∧
    (dbToAmp64 ⟨Fp.pinf⟩).amplitude_value = Fp.pinf := by
  refine ⟨?_, ?_, ?_, ?_⟩
  case refine_1 =>
    show fpPowf10 (fpDiv Fp.ninf (Fp.finite 20)) = Fp.finite 0
    norm_num [fpDiv, fpPowf10]
  case refine_2 =>
    show fpPowf10 (fpDiv Fp.pinf (Fp.finite 20)) = Fp.pinf
    norm_num [fpDiv, fpPowf10]
  case refine_3 =>
    show fpPowf10 (fpDiv Fp.ninf (Fp.finite 20)) = Fp.finite 0
    norm_num [fpDiv, fpPowf10]
  case refine_4 =>
    show fpPowf10 (fpDiv Fp.pinf (Fp.finite 20)) = Fp.pinf
    norm_num [fpDiv, fpPowf10]

/-- C8: both conversions are total — they are plain functions on the whole
idealized floating-point domain, mirroring the panic-free source — and a NaN
input propagates to a NaN output in every instantiation. -/
theorem conversions_total_nan_propagates :
    (ampToDb32 ⟨Fp.nan⟩).decibel_value = Fp.nan ∧
    (ampToDb64 ⟨Fp.nan⟩).decibel_value = Fp.nan ∧
    (dbToAmp32 ⟨Fp.nan⟩).amplitude_value = Fp.nan ∧
    (dbToAmp64 ⟨Fp.nan⟩).amplitude_value = Fp.nan :=
  ⟨rfl, rfl, rfl, rfl⟩

/-- C10: an amplitude of positive infinity converts to positive infinity, in
both precisions. -/
theorem pinf_amplitude_gives_pinf :
    (ampToDb32 ⟨Fp.pinf⟩).decibel_value = Fp.pinf ∧
    (ampToDb64 ⟨Fp.pinf⟩).decibel_value = Fp.pinf := by
  constructor <;>
    · show fpMul (fpLog10 Fp.pinf) (Fp.finite 20) = Fp.pinf
      norm_num [fpLog10, fpMul]

end Decibel
